import Mathlib

/-!
Shallow embedding of the domopay marketplace-payments application
(vendor onboarding and payment-split workflow), together with proofs
checking the specification's claims against it.

The embedding follows the JavaScript source files:
  src/server/models/offering.js, src/server/models/serviceVendor.js,
  src/server/models/customer.js, src/server/routes/api/offerings.js,
  src/server/routes/serviceVendors/serviceVendors.js and the Stripe
  route file (src/unnamed/part_003).
Mongoose documents are modelled as Lean structures holding the schema's
fields; optional schema fields are Option values; JavaScript truthiness
on those fields is made explicit.  Timestamps are Nat.  Calls to the
payments provider are recorded as values of an inductive type so that a
route's provider traffic is a plain list.
-/

set_option maxRecDepth 4000

namespace Domopay

/-! ## JavaScript value helpers -/

/-- Truthiness of an optional string field of a document: undefined and
the empty string are falsy, every other string is truthy. -/
def jsTruthyStr : Option String → Bool
  | none => false
  | some s => !(s == "")

/-- Truthiness of an optional Boolean field: only the value true is truthy. -/
def jsTruthyBool : Option Bool → Bool
  | none => false
  | some b => b

/-- Result of the JavaScript isNaN test on an optional numeric request
field: isNaN(undefined) is true, a plain number is not NaN. -/
def jsIsNaNOpt : Option Int → Bool
  | none => true
  | some _ => false

/-- The JavaScript comparison (x <= 0) on an optional numeric request
field: comparisons against NaN (an absent field) are false. -/
def jsLeZeroOpt : Option Int → Bool
  | none => false
  | some q => q ≤ 0

/-- A JavaScript number that may be NaN, as produced by parseInt. -/
inductive JsNum where
  | nan
  | int (n : Int)
  deriving DecidableEq, Repr

/-- The JavaScript parseInt applied to an optional numeric request field:
parseInt(undefined) is NaN, an integer parses to itself. -/
def jsParseIntOpt : Option Int → JsNum
  | none => .nan
  | some n => .int n

/-- Merge of an optional incoming value over a stored optional value, as
done path by path by a Mongoose document set with a request body: an
absent body field leaves the stored value in place. -/
def optSet (incoming stored : Option α) : Option α :=
  match incoming with
  | some v => some v
  | none => stored

/-! ## Data model (src/server/models) -/

/-- The vendor type enumeration of ServiceVendorSchema
(serviceVendor.js:24-28); the schema default is company. -/
inductive VendorType where
  | individual
  | company
  deriving DecidableEq, Repr

/-- ServiceVendor document, the fields of ServiceVendorSchema
(serviceVendor.js:9-52) used by the verified routes.  The id is the
MongoDB document id, created the creation timestamp. -/
structure ServiceVendor where
  id : String := ""
  email : String := ""
  password : String := ""
  type : VendorType := .company
  firstName : Option String := none
  lastName : Option String := none
  businessName : Option String := none
  country : String := "DE"
  created : Nat := 0
  stripeAccountId : Option String := none
  onboardingComplete : Option Bool := none
  apiKey : String := ""
  deriving DecidableEq, Repr

/-- Offering document, the fields of OfferingSchema (offering.js:10-23)
used by the verified routes (the geospatial and timestamp demo fields are
not consumed by any claim).  The id is the MongoDB document id, used by
the charge route as the transfer group. -/
structure Offering where
  id : String := ""
  serviceVendor : String := ""
  customer : String := ""
  amount : Nat := 0
  currency : String := "eur"
  created : Nat := 0
  stripePaymentIntentId : Option String := none
  deriving DecidableEq, Repr

/-- Customer document, the fields of CustomerSchema (customer.js:14-22). -/
structure CustomerRec where
  id : String := ""
  email : String := ""
  created : Nat := 0
  stripeCustomerId : Option String := none
  deriving DecidableEq, Repr

/-- Method amountForServiceVendor of OfferingSchema (offering.js:26-28):
the body is (return parseInt(this.amount)); parseInt of an integer-valued
Number is that integer, so the method returns the full offering amount.
The comment above it in the source says the amount is returned after
collecting 20 percent platform fees, but no fee is subtracted. -/
def amountForServiceVendor (o : Offering) : Nat :=
  o.amount

/-! ## Onboarding State Resolver (GET /serviceVendors/signup,
serviceVendors.js:179-196) -/

/-- The four wizard steps the signup route can render. -/
inductive SignupStep where
  | account
  | profile
  | payments
  | done
  deriving DecidableEq, Repr

/-- Step derivation of GET /serviceVendors/signup
(serviceVendors.js:179-196): account without a logged-in user; profile
when the type-dependent name fields are not all truthy; payments when
onboardingComplete is falsy; done otherwise. -/
def signupStep (user : Option ServiceVendor) : SignupStep :=
  match user with
  | none => .account
  | some u =>
    if (match u.type with
        | .individual => !(jsTruthyStr u.firstName) || !(jsTruthyStr u.lastName)
        | .company => !(jsTruthyStr u.businessName)) then
      .profile
    else if !(jsTruthyBool u.onboardingComplete) then
      .payments
    else
      .done

/-- Profile completeness as the signup route tests it: an individual needs
truthy first and last names, a company a truthy business name. -/
def profileComplete (u : ServiceVendor) : Bool :=
  match u.type with
  | .individual => jsTruthyStr u.firstName && jsTruthyStr u.lastName
  | .company => jsTruthyStr u.businessName

/-! ## Provider calls

Every call the verified routes make to the payments provider is recorded
as one value of ProviderCall, carrying exactly the parameters the source
passes. -/

/-- Parameters the routes pass to a provider charge creation
(serviceVendors.js:127-154): the direct destination-charge path fills the
on-behalf-of and transfer-data fields, the separate-charge path the
transfer-group field. -/
structure ChargeParams where
  amount : Nat
  currency : String
  on_behalf_of : Option String := none
  transfer_data_amount : Option Nat := none
  transfer_data_destination : Option String := none
  transfer_group : Option String := none
  deriving DecidableEq, Repr

/-- Parameters of a provider transfer creation (serviceVendors.js:155-160). -/
structure TransferParams where
  amount : Nat
  currency : String
  destination : Option String
  transfer_group : String
  deriving DecidableEq, Repr

/-- Parameters of a provider payment-intent creation
(api/offerings.js:62-79). -/
structure PaymentIntentParams where
  amount : Nat
  currency : String
  customer : Option String := none
  payment_method : String := ""
  application_fee_amount : Nat := 300
  transfer_data_amount : Nat := 0
  transfer_data_destination : Option String := none
  deriving DecidableEq, Repr

/-- One call to the payments provider, as issued by the modelled routes. -/
inductive ProviderCall where
  | chargeCreate (p : ChargeParams)
  | transferCreate (p : TransferParams)
  | paymentIntentCreate (p : PaymentIntentParams)
  | paymentMethodsList (customerId : Option String)
  | customerCreate (email : String)
  deriving DecidableEq, Repr

/-! ## Fee-split routing (POST /serviceVendors/offerings,
serviceVendors.js:102-172) -/

/-- Provider calls made by POST /serviceVendors/offerings for the saved
offering (serviceVendors.js:123-161).  A vendor with country DE gets one
destination charge whose nested transfer data carries
amountForServiceVendor and the vendor's account; any other country gets a
charge tagged with the offering id as transfer group followed by a
transfer of amountForServiceVendor to the vendor's account with the same
transfer group. -/
def postVendorOfferingsCalls (vendor : ServiceVendor) (offering : Offering) :
    List ProviderCall :=
  if vendor.country == "DE" then
    [.chargeCreate
      { amount := offering.amount
        currency := offering.currency
        on_behalf_of := vendor.stripeAccountId
        transfer_data_amount := some (amountForServiceVendor offering)
        transfer_data_destination := vendor.stripeAccountId }]
  else
    [.chargeCreate
      { amount := offering.amount
        currency := offering.currency
        transfer_group := some offering.id },
     .transferCreate
      { amount := amountForServiceVendor offering
        currency := offering.currency
        destination := vendor.stripeAccountId
        transfer_group := offering.id }]

/-! ## Persistence of the charge reference (Mongoose strict mode)

OfferingSchema (offering.js:10-23) declares the paths below and no other;
a Mongoose document persists only schema paths (strict mode, the
default), so an assignment to any other property is dropped at save. -/

/-- The paths declared by OfferingSchema (offering.js:10-23). -/
def offeringSchemaPaths : List String :=
  ["serviceVendor", "customer", "origin", "destination", "pickupTime",
   "dropoffTime", "amount", "currency", "created", "stripePaymentIntentId"]

/-- Assignment of a string value to a named path of an Offering document,
as persisted by a save: a path outside the schema is dropped (Mongoose
strict mode); of the schema paths, the routes only ever assign the
string-valued reference and identifier paths modelled here. -/
def assignOfferingPath (o : Offering) (path v : String) : Offering :=
  if path ∈ offeringSchemaPaths then
    if path == "serviceVendor" then { o with serviceVendor := v }
    else if path == "customer" then { o with customer := v }
    else if path == "currency" then { o with currency := v }
    else if path == "stripePaymentIntentId" then
      { o with stripePaymentIntentId := some v }
    else o
  else o

/-- The Offering document persisted by POST /serviceVendors/offerings
after a successful charge (serviceVendors.js:162-164): the route assigns
the charge id to the property stripeChargeId and saves. -/
def postVendorOfferingsPersisted (offering : Offering) (chargeId : String) :
    Offering :=
  assignOfferingPath offering "stripeChargeId" chargeId

/-- The Offering document persisted by POST /api/offerings after a
successful payment intent (api/offerings.js:81-83): the route assigns the
payment-intent id to the schema path stripePaymentIntentId and saves. -/
def apiOfferingsPersisted (offering : Offering) (paymentIntentId : String) :
    Offering :=
  assignOfferingPath offering "stripePaymentIntentId" paymentIntentId

/-! ## Password hashing and the pre-save hook
(serviceVendor.js:100-108 and 125-140) -/

/-- Modelled from the spec: bcryptjs, the hashing library behind
generateHash and validatePassword (serviceVendor.js:101-108), is not part
of this repository.  The spec describes the stored value as a one-way
hash computed at write time with an auto-generated salt, compared against
a candidate plaintext by validatePassword.  The model represents the salt
abstractly as a Nat and the hash as the salt marker followed by a colon
and the hashed plaintext, an injective salted encoding that is never
equal to the plaintext itself. -/
def bcryptHashSync (salt : Nat) (password : String) : String :=
  String.mk (List.replicate salt 'a' ++ ':' :: password.toList)

/-- Characters of a string after its first colon (used by the comparison
side of the bcrypt model to recover the hashed plaintext). -/
def afterFirstColon : List Char → List Char
  | [] => []
  | c :: cs => if c = ':' then cs else afterFirstColon cs

/-- Modelled from the spec: the comparison side of bcryptjs
(compareSync), which reads the salt out of the stored hash and reports
whether the stored hash is the hash of the candidate under it. -/
def bcryptCompareSync (candidate stored : String) : Bool :=
  afterFirstColon stored.toList == candidate.toList

/-- Method generateHash of ServiceVendorSchema (serviceVendor.js:101-103):
hash the password with an auto-generated salt. -/
def generateHash (salt : Nat) (password : String) : String :=
  bcryptHashSync salt password

/-- Method validatePassword of ServiceVendorSchema
(serviceVendor.js:106-108): compare the candidate against the stored
password hash. -/
def validatePassword (v : ServiceVendor) (password : String) : Bool :=
  bcryptCompareSync password v.password

/-- The pre-save hook of ServiceVendorSchema (serviceVendor.js:125-140):
when the type path is modified, an individual vendor's businessName is
set to null and a company vendor's firstName and lastName are set to
null; when the password path is modified, the password is replaced by its
hash.  The modified flags are those Mongoose derives for the save. -/
def preSave (salt : Nat) (v : ServiceVendor)
    (typeModified passwordModified : Bool) : ServiceVendor :=
  let v1 :=
    if typeModified then
      match v.type with
      | .individual => { v with businessName := none }
      | .company => { v with firstName := none, lastName := none }
    else v
  if passwordModified then { v1 with password := generateHash salt v1.password }
  else v1

/-! ## Profile update (POST /serviceVendors/signup,
serviceVendors.js:203-246) -/

/-- The request body of POST /serviceVendors/signup as merged into a
logged-in vendor: the route renames the form field serviceVendor-type to
type and passes the whole body to the document's set, so any schema path
named by the body is written.  An absent field leaves the document
unchanged. -/
structure SignupBody where
  email : Option String := none
  password : Option String := none
  type : Option VendorType := none
  firstName : Option String := none
  lastName : Option String := none
  businessName : Option String := none
  country : Option String := none
  stripeAccountId : Option String := none
  onboardingComplete : Option Bool := none
  deriving DecidableEq, Repr

/-- The document set performed by POST /serviceVendors/signup on a
logged-in vendor (serviceVendors.js:239): every schema path present in
the body overwrites the stored value. -/
def vendorSet (v : ServiceVendor) (b : SignupBody) : ServiceVendor :=
  { v with
    email := b.email.getD v.email
    password := b.password.getD v.password
    type := b.type.getD v.type
    firstName := optSet b.firstName v.firstName
    lastName := optSet b.lastName v.lastName
    businessName := optSet b.businessName v.businessName
    country := b.country.getD v.country
    stripeAccountId := optSet b.stripeAccountId v.stripeAccountId
    onboardingComplete := optSet b.onboardingComplete v.onboardingComplete }

/-- The saved vendor after POST /serviceVendors/signup merges a body into
a logged-in vendor and saves (serviceVendors.js:239-240): the merge, then
the pre-save hook with Mongoose's modified flags, which mark a path
modified exactly when the set value differs from the stored one. -/
def saveAfterSet (salt : Nat) (v : ServiceVendor) (b : SignupBody) :
    ServiceVendor :=
  let merged := vendorSet v b
  preSave salt merged (decide (merged.type ≠ v.type))
    (decide (merged.password ≠ v.password))

/-! ## Stripe account routes (src/unnamed/part_003) -/

/-- State effect of GET /serviceVendors/stripe/authorize on the vendor
(part_003:25-85): when the vendor has no external account identifier, a
provider account is created and its identifier stored; otherwise the
vendor is untouched. -/
def stripeAuthorize (v : ServiceVendor) (newAccountId : String) :
    ServiceVendor :=
  match v.stripeAccountId with
  | some _ => v
  | none => { v with stripeAccountId := some newAccountId }

/-- Redirect targets resolved by the Stripe routes. -/
inductive Redirect where
  | dashboard
  | signup
  deriving DecidableEq, Repr

/-- Outcome of the onboarding finalize route: the vendor state after the
request, whether that state was persisted, and the resolved redirect. -/
structure OnboardedResult where
  vendor : ServiceVendor
  saved : Bool
  redirect : Redirect
  deriving DecidableEq, Repr

/-- GET /serviceVendors/stripe/onboarded (part_003:92-149): the provider
is asked for the account's details-submitted status; when it is true the
route sets onboardingComplete to true, saves, and redirects to the
dashboard (its dummy-product creation has no effect on vendor state);
when it is false the route saves nothing and redirects to the signup
flow. -/
def stripeOnboarded (v : ServiceVendor) (details_submitted : Bool) :
    OnboardedResult :=
  if details_submitted then
    { vendor := { v with onboardingComplete := some true }
      saved := true
      redirect := .dashboard }
  else
    { vendor := v, saved := false, redirect := .signup }

/-! ## Product price resolution (GET /serviceVendors/dashboard,
serviceVendors.js:64-78) -/

/-- A provider price object. -/
structure Price where
  id : String
  unit_amount : Int
  deriving DecidableEq, Repr

/-- A provider product object: its identifier, name and optional default
price reference. -/
structure Product where
  id : String
  name : String
  default_price : Option String := none
  deriving DecidableEq, Repr

/-- Message with which the provider client rejects a price retrieval
whose id argument is not a string (an absent default price reference). -/
def invalidIdMessage : String := "invalid price id"

/-- Message with which a price retrieval for an unknown id rejects. -/
def unknownPriceMessage : String := "no such price"

/-- Awaited provider price retrieval, as the dashboard route calls it
with the product's default price reference: the provider client rejects a
missing (non-string) id, a retrieval of an unknown id rejects, and a
fulfilled retrieval returns the price object for the id.  A rejection
throws out of the awaiting handler. -/
def pricesRetrieve (known : List Price) : Option String → Except String Price
  | none => .error invalidIdMessage
  | some i =>
    match known.find? (fun p => p.id == i) with
    | some p => .ok p
    | none => .error unknownPriceMessage

/-- Truthiness of a fulfilled retrieval's value: a JavaScript object is
always truthy. -/
def priceTruthy (_ : Price) : Bool := true

/-- Price resolution of GET /serviceVendors/dashboard for one product
(serviceVendors.js:64-78): the route awaits a retrieval of the product's
default price reference and applies a JavaScript or-default of the first
listed price to the awaited value.  The or-default fires only on a falsy
fulfilled value, and a rejection propagates out of the handler. -/
def resolveDashboardPrice (known : List Price) (product : Product)
    (listed : List Price) : Except String Price :=
  match pricesRetrieve known product.default_price with
  | .error e => .error e
  | .ok p => .ok (if priceTruthy p then p else listed.headD p)

/-! ## Payment-link creation
(serviceVendors.js:301-346 and part_003:214-234) -/

/-- Request body of POST /serviceVendors/paymentLink/product. -/
structure PaymentLinkProductBody where
  productId : Option String := none
  unitPrice : Option Int := none
  quantity : Option Int := none
  deriving DecidableEq, Repr

/-- Validation message of the product-or-price check. -/
def invalidProductMessage : String := "Invalid product ID or price"

/-- Validation message of the quantity check. -/
def invalidQuantityMessage : String := "Invalid quantity"

/-- Response of the payment-link-by-product route. -/
inductive PLResponse where
  | badRequest (message : String)
  | linkCreated (unitAmount : Int) (quantity : Int)
  deriving DecidableEq, Repr

/-- Falsiness of the unitPrice body field (absent or zero). -/
def jsFalsyNumOpt : Option Int → Bool
  | none => true
  | some n => n == 0

/-- POST /serviceVendors/paymentLink/product (serviceVendors.js:301-346):
reject when productId is falsy or unitPrice is falsy, NaN or at most
zero; reject when quantity is NaN (in particular, absent) or at most
zero; otherwise create a price of a hundred times the unit price and a
payment link whose quantity is the body quantity with a JavaScript
or-default of one. -/
def postPaymentLinkProduct (b : PaymentLinkProductBody) : PLResponse :=
  if !(jsTruthyStr b.productId) || jsFalsyNumOpt b.unitPrice
      || jsIsNaNOpt b.unitPrice || jsLeZeroOpt b.unitPrice then
    .badRequest invalidProductMessage
  else if jsIsNaNOpt b.quantity || jsLeZeroOpt b.quantity then
    .badRequest invalidQuantityMessage
  else
    .linkCreated ((b.unitPrice.getD 0) * 100)
      (match b.quantity with
       | some q => if q == 0 then 1 else q
       | none => 1)

/-- Quantity POST /serviceVendors/stripe/paymentLink sends to the
provider (part_003:214-234): parseInt of the body quantity, with no
validation and no default, so an absent quantity is sent as NaN. -/
def stripePaymentLinkQuantity (quantity : Option Int) : JsNum :=
  jsParseIntOpt quantity

/-! ## Vendor and customer lookups
(serviceVendor.js:110-122, customer.js:30-62) -/

/-- First element of a list minimising a measure, keeping the earlier
element on ties: the document a find-one sorted ascending by the measure
returns. -/
def earliestBy (f : α → Nat) : List α → Option α
  | [] => none
  | x :: xs =>
    match earliestBy f xs with
    | none => some x
    | some y => if f y < f x then some y else some x

/-- First element of a list maximising a measure: the document a find-one
sorted descending by the measure returns. -/
def latestBy (f : α → Nat) : List α → Option α
  | [] => none
  | x :: xs =>
    match latestBy f xs with
    | none => some x
    | some y => if f x < f y then some y else some x

/-- Static getFirstOnboarded of ServiceVendorSchema
(serviceVendor.js:111-115): the earliest-created vendor whose
stripeAccountId is set; no other field (in particular not
onboardingComplete) is part of the filter. -/
def getFirstOnboarded (vendors : List ServiceVendor) : Option ServiceVendor :=
  earliestBy (fun v => v.created)
    (vendors.filter (fun v => v.stripeAccountId.isSome))

/-- The five default customers insertDefaultCustomers creates
(customer.js:65-101), each through a provider customer creation. -/
def defaultCustomerEmails : List String :=
  ["jenny.rosen@example.com", "kathleen.banks@example.com",
   "victoria.thompson@example.com", "ruth.hamilton@example.com",
   "emma.lane@example.com"]

/-- The customer records inserted by a (successful) seeding run at the
given time. -/
def seededCustomers (now : Nat) : List CustomerRec :=
  defaultCustomerEmails.map (fun e =>
    { id := e, email := e, created := now, stripeCustomerId := some e })

/-- Static getLatest of CustomerSchema (customer.js:30-45): when the
collection is empty it first seeds the five default customers, each via a
provider customer-creation call, then returns the latest-created
customer.  The result is the collection afterwards, the provider calls
made, and the customer found. -/
def customerGetLatest (customers : List CustomerRec) (now : Nat) :
    List CustomerRec × List ProviderCall × Option CustomerRec :=
  if customers.isEmpty then
    let seeded := seededCustomers now
    (seeded, defaultCustomerEmails.map ProviderCall.customerCreate,
     latestBy (fun c => c.created) seeded)
  else
    (customers, [], latestBy (fun c => c.created) customers)

/-! ## POST /api/offerings (api/offerings.js:23-95) -/

/-- Request body of POST /api/offerings (only amount and currency are
read; the paymentMethod field is ignored by the route). -/
structure ApiOfferingBody where
  paymentMethod : Option String := none
  amount : Nat := 0
  currency : String := "eur"
  deriving DecidableEq, Repr

/-- Result of POST /api/offerings: HTTP status, provider calls made (in
order), the persisted offering if one was created, and the customer
collection afterwards. -/
structure ApiOfferingsResult where
  status : Nat
  calls : List ProviderCall
  offering : Option Offering
  customersAfter : List CustomerRec
  deriving DecidableEq, Repr

/-- POST /api/offerings (api/offerings.js:23-95): look up the vendor with
getFirstOnboarded and the customer with getLatest; when either lookup
yields no record, throw into the catch and answer 500; otherwise create
and save the offering from the body's amount and currency, list the
customer's payment methods, create a destination payment intent carrying
a fixed application fee of 300 and amountForServiceVendor as the nested
transfer amount, and attach the payment-intent id to the offering. -/
def postApiOfferings (vendors : List ServiceVendor)
    (customers : List CustomerRec) (now : Nat) (offeringId : String)
    (paymentIntentId : String) (latestPm : String) (body : ApiOfferingBody) :
    ApiOfferingsResult :=
  let sv? := getFirstOnboarded vendors
  let seeded := customerGetLatest customers now
  match sv?, seeded.2.2 with
  | some sv, some cust =>
    let offering : Offering :=
      { id := offeringId, serviceVendor := sv.id, customer := cust.id,
        amount := body.amount, currency := body.currency }
    { status := 200
      calls := seeded.2.1 ++
        [.paymentMethodsList cust.stripeCustomerId,
         .paymentIntentCreate
          { amount := offering.amount
            currency := offering.currency
            customer := cust.stripeCustomerId
            payment_method := latestPm
            application_fee_amount := 300
            transfer_data_amount := amountForServiceVendor offering
            transfer_data_destination := sv.stripeAccountId }]
      offering := some (apiOfferingsPersisted offering paymentIntentId)
      customersAfter := seeded.1 }
  | _, _ =>
    { status := 500, calls := seeded.2.1, offering := none,
      customersAfter := seeded.1 }

/-! ## Derived predicates and concrete fixtures -/

/-- Mutual exclusivity of the type-dependent name fields, the invariant
the spec attributes to every save: an individual vendor carries no
business name, a company vendor no personal names. -/
def mutuallyExclusiveByType (v : ServiceVendor) : Bool :=
  match v.type with
  | .individual => v.businessName.isNone
  | .company => v.firstName.isNone && v.lastName.isNone

/-- A German company vendor with an external account, used by concrete
evaluations. -/
def vendorDE : ServiceVendor :=
  { id := "v1", email := "de@example.com", password := "h1",
    type := .company, businessName := some "Haus GmbH", country := "DE",
    created := 10, stripeAccountId := some "acct_de", apiKey := "k1" }

/-- A French vendor, identical but for country and account. -/
def vendorFR : ServiceVendor :=
  { vendorDE with
    id := "v2"
    country := "FR"
    stripeAccountId := some "acct_fr"
    apiKey := "k2" }

/-- An offering of amount 10000 minor units. -/
def offering10k : Offering :=
  { id := "off_1", serviceVendor := "v1", customer := "c1", amount := 10000 }

/-- A freshly signed-up vendor: no names, no account, onboardingComplete
unset. -/
def vendorFresh : ServiceVendor :=
  { id := "v3", email := "fresh@example.com", password := "h3", apiKey := "k3" }

/-- A signup body naming only the onboardingComplete schema path. -/
def bodyOnboarding : SignupBody :=
  { onboardingComplete := some true }

/-- An individual vendor with personal names filled in. -/
def vendorIndividual : ServiceVendor :=
  { id := "v4", email := "ina@example.com", password := "h4",
    type := .individual, firstName := some "Ina", lastName := some "Klein",
    apiKey := "k4" }

/-- A signup body that re-submits the same type and adds a business name. -/
def bodyBusinessOnly : SignupBody :=
  { type := some .individual, businessName := some "ACME" }

/-- A signup body that changes only the password. -/
def bodyNewPassword : SignupBody :=
  { password := some "hunter2" }

/-- Two provider prices for one product. -/
def priceA : Price := { id := "price_a", unit_amount := 2000 }

/-- The second listed price. -/
def priceB : Price := { id := "price_b", unit_amount := 500 }

/-- A product without a default price reference. -/
def productNoDefault : Product := { id := "prod_1", name := "Bescheinigung" }

/-- A product whose default price reference names the second listed
price. -/
def productWithDefault : Product :=
  { id := "prod_2", name := "Schluessel", default_price := some "price_b" }

/-- A payment-link-by-product body with the quantity field omitted. -/
def bodyNoQuantity : PaymentLinkProductBody :=
  { productId := some "prod_1", unitPrice := some 10 }

/-- A vendor record whose external account identifier is not set. -/
def vendorNoAccount : ServiceVendor :=
  { id := "v5", email := "no-acct@example.com", password := "h5", apiKey := "k5" }

/-- A request body for POST /api/offerings. -/
def apiBodyEx : ApiOfferingBody := { amount := 1200 }

deriving instance DecidableEq for Except

/-! ## Helper lemmas -/

/-- Truthiness of an optional Boolean is exactly the value some true. -/
theorem jsTruthyBool_iff (ob : Option Bool) :
    jsTruthyBool ob = true ↔ ob = some true := by
  cases ob with
  | none => simp [jsTruthyBool]
  | some b => cases b <;> simp [jsTruthyBool]

/-- Assigning the schema path stripePaymentIntentId updates exactly that
field. -/
theorem assignOfferingPath_intentId (o : Offering) (v : String) :
    assignOfferingPath o "stripePaymentIntentId" v =
      { o with stripePaymentIntentId := some v } := by
  rfl

/-- Assigning the property stripeChargeId, which OfferingSchema does not
declare, leaves the persisted document unchanged. -/
theorem assignOfferingPath_chargeId (o : Offering) (v : String) :
    assignOfferingPath o "stripeChargeId" v = o := by
  rfl

/-- Condition of the signup route's first branch, rewritten through
profileComplete. -/
theorem signupStep_condition (u : ServiceVendor) :
    (match u.type with
      | VendorType.individual =>
        !(jsTruthyStr u.firstName) || !(jsTruthyStr u.lastName)
      | VendorType.company => !(jsTruthyStr u.businessName)) =
      !(profileComplete u) := by
  cases h : u.type <;> simp [profileComplete, h]

/-! ## Claim theorems -/

/-- C1: the Fee-Split Calculator claim fails on the code.  At amount
10000 the method amountForServiceVendor returns the full amount 10000 and
not the vendor share floor(10000 * 8 / 10) = 8000 the claim states; the
payout is still at most the amount. -/
theorem C1_amountForServiceVendor_full_amount :
    amountForServiceVendor offering10k = 10000 ∧
    10000 * 8 / 10 = 8000 ∧
    amountForServiceVendor offering10k ≠ 10000 * 8 / 10 ∧
    amountForServiceVendor offering10k ≤ offering10k.amount := by
  decide

/-- C2: the routing shape of POST /serviceVendors/offerings is as
claimed (one destination charge for country DE; a transfer-group-matched
charge and transfer otherwise) but the transfer amounts it carries at
offering amount 10000 are 10000, not the claimed 8000, because
amountForServiceVendor subtracts no fee. -/
theorem C2_charge_routing_at_10000 :
    postVendorOfferingsCalls vendorDE offering10k =
      [.chargeCreate
        { amount := 10000
          currency := "eur"
          on_behalf_of := some "acct_de"
          transfer_data_amount := some 10000
          transfer_data_destination := some "acct_de" }] ∧
    postVendorOfferingsCalls vendorFR offering10k =
      [.chargeCreate
        { amount := 10000
          currency := "eur"
          transfer_group := some "off_1" },
       .transferCreate
        { amount := 10000
          currency := "eur"
          destination := some "acct_fr"
          transfer_group := "off_1" }] ∧
    (10000 : Nat) ≠ 8000 := by
  refine ⟨?_, ?_, by decide⟩ <;> rfl

/-- C3: after a successful charge, POST /serviceVendors/offerings assigns
the charge id to the property stripeChargeId, which OfferingSchema does
not declare, so the persisted Offering is unchanged and carries no
external reference at all — the reference is attached zero times, not
exactly once.  (The separate POST /api/offerings path, which assigns the
declared path stripePaymentIntentId, does attach it.) -/
theorem C3_charge_reference_dropped :
    postVendorOfferingsPersisted offering10k "ch_123" = offering10k ∧
    (postVendorOfferingsPersisted offering10k "ch_123").stripePaymentIntentId
      = none ∧
    "stripeChargeId" ∉ offeringSchemaPaths ∧
    (apiOfferingsPersisted offering10k "pi_123").stripePaymentIntentId
      = some "pi_123" := by
  refine ⟨rfl, rfl, by decide, rfl⟩

/-- C4: the Onboarding State Resolver returns exactly one of the four
steps; it is account exactly for a missing record, profile exactly when
the type-dependent profile fields are incomplete, payments exactly when
the profile is complete but onboardingComplete is falsy, and done if and
only if the profile is complete and onboardingComplete is true. -/
theorem C4_onboarding_step_resolver (u : ServiceVendor) :
    signupStep none = SignupStep.account ∧
    signupStep (some u) ≠ SignupStep.account ∧
    (signupStep (some u) = SignupStep.profile ↔ profileComplete u = false) ∧
    (signupStep (some u) = SignupStep.payments ↔
      profileComplete u = true ∧ jsTruthyBool u.onboardingComplete = false) ∧
    (signupStep (some u) = SignupStep.done ↔
      profileComplete u = true ∧ u.onboardingComplete = some true) := by
  have hstep : signupStep (some u) =
      if !(profileComplete u) then SignupStep.profile
      else if !(jsTruthyBool u.onboardingComplete) then SignupStep.payments
      else SignupStep.done := by
    simp only [signupStep, signupStep_condition]
  refine ⟨rfl, ?_⟩
  rw [hstep]
  by_cases hp : profileComplete u <;>
    by_cases ho : jsTruthyBool u.onboardingComplete <;>
      simp [hp, ho, ← jsTruthyBool_iff]

/-- The pre-save hook never touches onboardingComplete. -/
theorem preSave_onboardingComplete (salt : Nat) (v : ServiceVendor)
    (tm pm : Bool) :
    (preSave salt v tm pm).onboardingComplete = v.onboardingComplete := by
  cases tm <;> cases pm <;> cases h : v.type <;> simp [preSave, h]

/-- A save whose modified flags include the type path re-establishes the
type-dependent name exclusivity. -/
theorem preSave_typeModified_mutex (salt : Nat) (v : ServiceVendor)
    (pm : Bool) :
    mutuallyExclusiveByType (preSave salt v true pm) = true := by
  cases h : v.type <;> cases pm <;>
    simp [preSave, h, mutuallyExclusiveByType, generateHash]

/-- The password stored by the pre-save hook: hashed exactly when the
password path is modified. -/
theorem preSave_password (salt : Nat) (v : ServiceVendor) (tm pm : Bool) :
    (preSave salt v tm pm).password =
      if pm then generateHash salt v.password else v.password := by
  cases tm <;> cases pm <;> cases h : v.type <;> simp [preSave, h]

/-- C5 counterexample: the onboarding finalize route is not the only
writer of onboardingComplete.  POST /serviceVendors/signup merges the
whole request body into the logged-in vendor, so a body naming the
onboardingComplete schema path writes it: saving vendorFresh (where it is
unset) with bodyOnboarding sets it to true. -/
theorem C5_signup_writes_onboardingComplete :
    (saveAfterSet 0 vendorFresh bodyOnboarding).onboardingComplete
      = some true ∧
    vendorFresh.onboardingComplete = none ∧
    (saveAfterSet 0 vendorFresh bodyOnboarding).onboardingComplete
      ≠ vendorFresh.onboardingComplete := by
  refine ⟨rfl, rfl, by decide⟩

/-- C5 (amended): when the provider reports details not submitted, the
finalize route leaves the vendor unchanged, persists nothing and
redirects to the signup flow (and when they are submitted it sets
onboardingComplete to true); it is the only operation that explicitly
assigns onboardingComplete — the account-authorize route and the pre-save
hook preserve the field, and the signup profile update preserves it
whenever the request body does not name it. -/
theorem C5_finalize_frame (v : ServiceVendor) (b : SignupBody) (salt : Nat)
    (tm pm : Bool) (accountId : String) :
    stripeOnboarded v false =
      { vendor := v, saved := false, redirect := Redirect.signup } ∧
    (stripeOnboarded v true).vendor.onboardingComplete = some true ∧
    (stripeOnboarded v true).saved = true ∧
    (stripeAuthorize v accountId).onboardingComplete = v.onboardingComplete ∧
    (preSave salt v tm pm).onboardingComplete = v.onboardingComplete ∧
    (b.onboardingComplete = none →
      (saveAfterSet salt v b).onboardingComplete = v.onboardingComplete) := by
  refine ⟨rfl, rfl, rfl, ?_, preSave_onboardingComplete salt v tm pm, ?_⟩
  · cases h : v.stripeAccountId <;> simp [stripeAuthorize, h]
  · intro hb
    have hm : (vendorSet v b).onboardingComplete = v.onboardingComplete := by
      simp [vendorSet, optSet, hb]
    rw [saveAfterSet, preSave_onboardingComplete, hm]

/-- C6 counterexample: the mutual-exclusivity invariant does not hold
after every save.  A signup submission that re-submits the unchanged type
individual and adds a business name leaves Mongoose's type path
unmodified, so the hook clears nothing: the saved vendor is an individual
carrying both personal names and a business name. -/
theorem C6_save_without_type_change :
    mutuallyExclusiveByType (saveAfterSet 0 vendorIndividual bodyBusinessOnly)
      = false ∧
    (saveAfterSet 0 vendorIndividual bodyBusinessOnly).type
      = VendorType.individual ∧
    (saveAfterSet 0 vendorIndividual bodyBusinessOnly).businessName
      = some "ACME" ∧
    (saveAfterSet 0 vendorIndividual bodyBusinessOnly).firstName
      = some "Ina" := by
  refine ⟨rfl, rfl, rfl, rfl⟩

/-- C6 (amended): on a save whose modified paths include type, the hook
clears the other type's fields — an individual loses its business name, a
company its personal names — so mutual exclusivity holds after every save
that modifies type (and only such saves re-establish it). -/
theorem C6_type_modifying_save_mutex (salt : Nat) (v : ServiceVendor)
    (b : SignupBody) (pm : Bool) :
    mutuallyExclusiveByType (preSave salt v true pm) = true ∧
    ((vendorSet v b).type ≠ v.type →
      mutuallyExclusiveByType (saveAfterSet salt v b) = true) := by
  refine ⟨preSave_typeModified_mutex salt v pm, ?_⟩
  intro h
  rw [saveAfterSet]
  rw [decide_eq_true h]
  exact preSave_typeModified_mutex salt (vendorSet v b) _

/-- C7: the first-listed-price fallback is unreachable.  For a product
without a default price reference the dashboard's price resolution
rejects (the or-default only applies to a fulfilled retrieval's value,
and a fulfilled retrieval is a truthy object), so with two listed prices
the resolved price is an error, not the first listed price; a product
with a default price reference resolves to it. -/
theorem C7_missing_default_price_throws :
    resolveDashboardPrice [priceA, priceB] productNoDefault [priceA, priceB]
      = Except.error invalidIdMessage ∧
    resolveDashboardPrice [priceA, priceB] productNoDefault [priceA, priceB]
      ≠ Except.ok priceA ∧
    resolveDashboardPrice [priceA, priceB] productWithDefault [priceA, priceB]
      = Except.ok priceB := by
  refine ⟨rfl, by decide, rfl⟩

/-- C8: a payment-link request with the quantity field omitted is not
created with quantity one.  POST /serviceVendors/paymentLink/product
rejects it with the quantity validation message (isNaN of an absent field
is true, so the or-default of one is never reached), and POST
/serviceVendors/stripe/paymentLink sends parseInt of the absent field,
NaN, to the provider; a present quantity of two passes through as two. -/
theorem C8_omitted_quantity_not_defaulted :
    postPaymentLinkProduct bodyNoQuantity
      = PLResponse.badRequest invalidQuantityMessage ∧
    stripePaymentLinkQuantity none = JsNum.nan ∧
    JsNum.nan ≠ JsNum.int 1 ∧
    postPaymentLinkProduct { bodyNoQuantity with quantity := some 2 }
      = PLResponse.linkCreated 1000 2 := by
  refine ⟨rfl, rfl, by decide, rfl⟩

/-- Reading past the salt marker of a stored hash recovers the hashed
plaintext. -/
theorem afterFirstColon_marker (n : Nat) (s : List Char) :
    afterFirstColon (List.replicate n 'a' ++ ':' :: s) = s := by
  induction n with
  | zero => simp [afterFirstColon]
  | succ k ih =>
    rw [List.replicate_succ, List.cons_append, afterFirstColon]
    simp only [if_neg (by decide : ('a' : Char) ≠ ':')]
    exact ih

/-- A stored hash is never the plaintext it hashes. -/
theorem bcryptHashSync_ne (salt : Nat) (p : String) :
    bcryptHashSync salt p ≠ p := by
  intro h
  have h2 := congrArg (fun s => s.toList.length) h
  simp only [bcryptHashSync] at h2
  have h3 : (List.replicate salt 'a' ++ ':' :: p.toList).length
      = p.toList.length := h2
  simp [List.length_append] at h3
  omega

/-- The comparison side of the bcrypt model accepts exactly the hashed
plaintext. -/
theorem bcryptCompareSync_hash_iff (salt : Nat) (p w : String) :
    bcryptCompareSync w (bcryptHashSync salt p) = true ↔ w = p := by
  rw [bcryptCompareSync,
    show (bcryptHashSync salt p).toList
      = List.replicate salt 'a' ++ ':' :: p.toList from rfl,
    afterFirstColon_marker]
  constructor
  · intro h
    exact (String.ext (eq_of_beq h)).symm
  · intro h
    subst h
    exact beq_self_eq_true _

/-- C9: a profile save that changes the password stores the write-time
hash, which differs from the plaintext; afterwards validatePassword
accepts exactly the new plaintext.  (The bcryptjs hash itself is external
to the repository and modelled from the spec as a salted one-way hash.) -/
theorem C9_password_hashed_and_validated (salt : Nat) (v : ServiceVendor)
    (b : SignupBody) (p w : String) (hb : b.password = some p)
    (hv : p ≠ v.password) (hw : w ≠ p) :
    (saveAfterSet salt v b).password ≠ p ∧
    validatePassword (saveAfterSet salt v b) p = true ∧
    validatePassword (saveAfterSet salt v b) w = false := by
  have hmrg : (vendorSet v b).password = p := by simp [vendorSet, hb]
  have hmod : decide ((vendorSet v b).password ≠ v.password) = true := by
    rw [hmrg]
    exact decide_eq_true hv
  have hsave : (saveAfterSet salt v b).password = bcryptHashSync salt p := by
    rw [saveAfterSet, preSave_password, hmod, if_pos rfl, hmrg]
    rfl
  refine ⟨?_, ?_, ?_⟩
  · rw [hsave]
    exact bcryptHashSync_ne salt p
  · rw [validatePassword, hsave]
    exact (bcryptCompareSync_hash_iff salt p p).mpr rfl
  · rw [validatePassword, hsave, Bool.eq_false_iff]
    intro hc
    exact hw ((bcryptCompareSync_hash_iff salt p w).mp hc)

/-- C9 witness: the concrete save of vendorFresh with the password
hunter2 yields a stored value that is not hunter2, validates hunter2 and
rejects a different candidate. -/
theorem C9_password_witness :
    (saveAfterSet 1 vendorFresh bodyNewPassword).password ≠ "hunter2" ∧
    validatePassword (saveAfterSet 1 vendorFresh bodyNewPassword) "hunter2"
      = true ∧
    validatePassword (saveAfterSet 1 vendorFresh bodyNewPassword) "wrong"
      = false :=
  C9_password_hashed_and_validated 1 vendorFresh bodyNewPassword
    "hunter2" "wrong" rfl (by decide) (by decide)

/-- The ascending find-one returns nothing only on an empty collection. -/
theorem earliestBy_eq_none {f : α → Nat} {l : List α}
    (h : earliestBy f l = none) : l = [] := by
  cases l with
  | nil => rfl
  | cons a t =>
    rw [earliestBy] at h
    cases he : earliestBy f t <;> rw [he] at h
    · replace h : some a = none := h
      simp at h
    · rename_i z
      replace h : (if f z < f a then some z else some a) = none := h
      split at h <;> simp at h

/-- The ascending find-one returns an element of the collection. -/
theorem earliestBy_mem {f : α → Nat} :
    ∀ {l : List α} {x : α}, earliestBy f l = some x → x ∈ l := by
  intro l
  induction l with
  | nil => intro x h; simp [earliestBy] at h
  | cons a t ih =>
    intro x h
    rw [earliestBy] at h
    cases he : earliestBy f t <;> rw [he] at h
    · replace h : some a = some x := h
      obtain rfl : a = x := by simpa using h
      exact List.mem_cons_self a t
    · rename_i z
      replace h : (if f z < f a then some z else some a) = some x := h
      by_cases hlt : f z < f a
      · rw [if_pos hlt] at h
        obtain rfl : z = x := by simpa using h
        exact List.mem_cons_of_mem a (ih he)
      · rw [if_neg hlt] at h
        obtain rfl : a = x := by simpa using h
        exact List.mem_cons_self a t

/-- The ascending find-one minimises the sort measure. -/
theorem earliestBy_le {f : α → Nat} :
    ∀ (l : List α) (x : α), earliestBy f l = some x → ∀ y ∈ l, f x ≤ f y := by
  intro l
  induction l with
  | nil => intro x h; simp [earliestBy] at h
  | cons a t ih =>
    intro x h
    rw [earliestBy] at h
    cases he : earliestBy f t <;> rw [he] at h
    · replace h : some a = some x := h
      obtain rfl : a = x := by simpa using h
      intro y hy
      rcases List.mem_cons.mp hy with rfl | hyt
      · exact Nat.le_refl _
      · rw [earliestBy_eq_none he] at hyt
        simp at hyt
    · rename_i z
      replace h : (if f z < f a then some z else some a) = some x := h
      by_cases hlt : f z < f a
      · rw [if_pos hlt] at h
        obtain rfl : z = x := by simpa using h
        intro y hy
        rcases List.mem_cons.mp hy with rfl | hyt
        · exact Nat.le_of_lt hlt
        · exact ih _ he y hyt
      · rw [if_neg hlt] at h
        obtain rfl : a = x := by simpa using h
        intro y hy
        rcases List.mem_cons.mp hy with rfl | hyt
        · exact Nat.le_refl _
        · exact Nat.le_trans (Nat.le_of_not_lt hlt) (ih z he y hyt)

/-- The descending find-one returns an element of the collection. -/
theorem latestBy_mem {f : α → Nat} :
    ∀ {l : List α} {x : α}, latestBy f l = some x → x ∈ l := by
  intro l
  induction l with
  | nil => intro x h; simp [latestBy] at h
  | cons a t ih =>
    intro x h
    rw [latestBy] at h
    cases he : latestBy f t <;> rw [he] at h
    · replace h : some a = some x := h
      obtain rfl : a = x := by simpa using h
      exact List.mem_cons_self a t
    · rename_i z
      replace h : (if f a < f z then some z else some a) = some x := h
      by_cases hlt : f a < f z
      · rw [if_pos hlt] at h
        obtain rfl : z = x := by simpa using h
        exact List.mem_cons_of_mem a (ih he)
      · rw [if_neg hlt] at h
        obtain rfl : a = x := by simpa using h
        exact List.mem_cons_self a t

/-- The descending find-one returns nothing only on an empty collection. -/
theorem latestBy_eq_none {f : α → Nat} {l : List α}
    (h : latestBy f l = none) : l = [] := by
  cases l with
  | nil => rfl
  | cons a t =>
    rw [latestBy] at h
    cases he : latestBy f t <;> rw [he] at h
    · replace h : some a = none := h
      simp at h
    · rename_i z
      replace h : (if f a < f z then some z else some a) = none := h
      split at h <;> simp at h

/-- The descending find-one maximises the sort measure. -/
theorem latestBy_ge {f : α → Nat} :
    ∀ (l : List α) (x : α), latestBy f l = some x → ∀ y ∈ l, f y ≤ f x := by
  intro l
  induction l with
  | nil => intro x h; simp [latestBy] at h
  | cons a t ih =>
    intro x h
    rw [latestBy] at h
    cases he : latestBy f t <;> rw [he] at h
    · replace h : some a = some x := h
      obtain rfl : a = x := by simpa using h
      intro y hy
      rcases List.mem_cons.mp hy with rfl | hyt
      · exact Nat.le_refl _
      · rw [latestBy_eq_none he] at hyt
        simp at hyt
    · rename_i z
      replace h : (if f a < f z then some z else some a) = some x := h
      by_cases hlt : f a < f z
      · rw [if_pos hlt] at h
        obtain rfl : z = x := by simpa using h
        intro y hy
        rcases List.mem_cons.mp hy with rfl | hyt
        · exact Nat.le_of_lt hlt
        · exact ih _ he y hyt
      · rw [if_neg hlt] at h
        obtain rfl : a = x := by simpa using h
        intro y hy
        rcases List.mem_cons.mp hy with rfl | hyt
        · exact Nat.le_refl _
        · exact Nat.le_trans (ih z he y hyt) (Nat.le_of_not_lt hlt)

/-- Characterisation of getFirstOnboarded: it returns a vendor of the
collection whose external account is set and whose creation timestamp is
minimal among all such vendors; the filter checks stripeAccountId only. -/
theorem getFirstOnboarded_spec (vendors : List ServiceVendor)
    (v : ServiceVendor) (h : getFirstOnboarded vendors = some v) :
    v ∈ vendors ∧ v.stripeAccountId.isSome = true ∧
      ∀ w ∈ vendors, w.stripeAccountId.isSome = true →
        v.created ≤ w.created := by
  rw [getFirstOnboarded] at h
  have h1 := earliestBy_mem h
  have h2 := earliestBy_le _ v h
  rw [List.mem_filter] at h1
  exact ⟨h1.1, h1.2, fun w hw hws =>
    h2 w (List.mem_filter.mpr ⟨hw, hws⟩)⟩

/-- Whatever the seeding branch did, getLatest reports the descending
find-one over the collection it leaves behind. -/
theorem customerGetLatest_found (customers : List CustomerRec) (now : Nat) :
    (customerGetLatest customers now).2.2
      = latestBy (fun c => c.created) (customerGetLatest customers now).1 := by
  by_cases h : customers.isEmpty <;> simp [customerGetLatest, h]

/-- Every provider call getLatest itself makes is a customer creation
(of the seeding branch). -/
theorem customerGetLatest_calls (customers : List CustomerRec) (now : Nat) :
    ∀ pc ∈ (customerGetLatest customers now).2.1,
      ∃ e, pc = ProviderCall.customerCreate e := by
  by_cases h : customers.isEmpty <;> simp [customerGetLatest, h]

/-- C10 counterexample: with a vendor collection holding no record with
an external account and an empty customer collection, the vendor lookup
yields no record and the request answers 500 with no Offering created,
but provider calls were already made: the customer lookup's seeding
branch issued its five provider customer creations before the failure. -/
theorem C10_seeding_calls_before_500 :
    getFirstOnboarded [vendorNoAccount] = none ∧
    (postApiOfferings [vendorNoAccount] [] 7 "off_9" "pi_9" "pm_9"
      apiBodyEx).status = 500 ∧
    (postApiOfferings [vendorNoAccount] [] 7 "off_9" "pi_9" "pm_9"
      apiBodyEx).offering = none ∧
    (postApiOfferings [vendorNoAccount] [] 7 "off_9" "pi_9" "pm_9"
      apiBodyEx).calls =
      defaultCustomerEmails.map ProviderCall.customerCreate ∧
    defaultCustomerEmails.map ProviderCall.customerCreate ≠ [] := by
  refine ⟨rfl, rfl, rfl, rfl, by decide⟩

/-- C10 (amended): POST /api/offerings always charges the
earliest-created vendor whose external account identifier is set (with no
onboardingComplete check) against the latest-created customer, both
independent of the request body; when either lookup yields no record the
request answers 500 before any Offering is created and before any
charge-related provider call — though when the customer collection is
empty the lookup itself first seeds default customers through provider
customer-creation calls, the only calls such a failing request makes. -/
theorem C10_api_offerings_lookups (vendors : List ServiceVendor)
    (customers : List CustomerRec) (now : Nat) (oid pid pm : String)
    (b1 b2 : ApiOfferingBody) :
    (∀ v, getFirstOnboarded vendors = some v →
      v ∈ vendors ∧ v.stripeAccountId.isSome = true ∧
        ∀ w ∈ vendors, w.stripeAccountId.isSome = true →
          v.created ≤ w.created) ∧
    (∀ c, (customerGetLatest customers now).2.2 = some c →
      c ∈ (customerGetLatest customers now).1 ∧
        ∀ d ∈ (customerGetLatest customers now).1,
          d.created ≤ c.created) ∧
    ((postApiOfferings vendors customers now oid pid pm b1).offering.map
        (fun o => o.serviceVendor)
      = (postApiOfferings vendors customers now oid pid pm b2).offering.map
          (fun o => o.serviceVendor) ∧
     (postApiOfferings vendors customers now oid pid pm b1).offering.map
        (fun o => o.customer)
      = (postApiOfferings vendors customers now oid pid pm b2).offering.map
          (fun o => o.customer) ∧
     (postApiOfferings vendors customers now oid pid pm b1).status
      = (postApiOfferings vendors customers now oid pid pm b2).status) ∧
    (∀ o, (postApiOfferings vendors customers now oid pid pm b1).offering
        = some o →
      ∃ v c, getFirstOnboarded vendors = some v ∧
        (customerGetLatest customers now).2.2 = some c ∧
        o.serviceVendor = v.id ∧ o.customer = c.id) ∧
    ((getFirstOnboarded vendors = none ∨
        (customerGetLatest customers now).2.2 = none) →
      (postApiOfferings vendors customers now oid pid pm b1).status = 500 ∧
      (postApiOfferings vendors customers now oid pid pm b1).offering
        = none ∧
      ∀ pc ∈ (postApiOfferings vendors customers now oid pid pm b1).calls,
        ∃ e, pc = ProviderCall.customerCreate e) := by
  refine ⟨fun v h => getFirstOnboarded_spec vendors v h, ?_, ?_, ?_, ?_⟩
  · intro c hc
    rw [customerGetLatest_found] at hc
    exact ⟨latestBy_mem hc, latestBy_ge _ c hc⟩
  · cases hsv : getFirstOnboarded vendors <;>
      cases hcu : (customerGetLatest customers now).2.2 <;>
        simp [postApiOfferings, hsv, hcu, apiOfferingsPersisted,
          assignOfferingPath_intentId]
  · intro o ho
    cases hsv : getFirstOnboarded vendors <;>
      cases hcu : (customerGetLatest customers now).2.2 <;>
        rw [postApiOfferings] at ho <;> simp [hsv, hcu] at ho
    rename_i sv cust
    refine ⟨sv, cust, rfl, rfl, ?_, ?_⟩ <;>
      simp [← ho, apiOfferingsPersisted, assignOfferingPath_intentId]
  · intro hfail
    cases hsv : getFirstOnboarded vendors <;>
      cases hcu : (customerGetLatest customers now).2.2 <;>
        simp [postApiOfferings, hsv, hcu]
    · exact customerGetLatest_calls customers now
    · exact customerGetLatest_calls customers now
    · exact customerGetLatest_calls customers now
    · rcases hfail with h1 | h2
      · rw [hsv] at h1
        simp at h1
      · rw [hcu] at h2
        simp at h2

end Domopay
